import Mathlib

set_option maxRecDepth 8000

/-
Verification development for the proximity-and-similarity conflict-detection
pipeline in `web-search.py` (class `AgenticView`).

Modelling conventions:
* Python floats are modelled by rationals (ℚ).  The `float()` builtin applied
  to strings is modelled by `parseFloat`, which accepts the finite decimal and
  scientific literals that matter here (the special literals `inf`/`nan` and
  digit underscores are outside the model).
* Fallible operations (external calls that may raise, list indexing that may
  raise `IndexError`, …) return `Option`; `Option.none` stands for a Python
  exception propagating out of the modelled expression.
* External collaborators (the Google geocoder, the PostGIS distance function,
  the database contents, the OpenAI model, numpy's sorting routine) are
  parameters of the embedded functions, so theorems quantify over their
  behaviour.  A conclusion that holds for every collaborator value shows, in
  particular, that the collaborator is never consulted on that path.
* `pandas.DataFrame.sort_values(..., ascending=False)` is called with the
  default `kind='quicksort'`; the pandas documentation guarantees only that
  the result is ordered by the key ("mergesort and stable are the only stable
  algorithms") — numpy's introsort swaps equal-keyed elements as soon as the
  partition loop runs (arrays of 17 or more entries), which is reachable here
  because the neighbour query returns up to 20 rows.  The sort is therefore
  embedded as a parameter constrained to the documented contract (a
  permutation of its input ordered by the key), and likewise the SQL
  `ORDER BY` in the neighbour query.
-/

/-- Value of a Python dictionary entry that may be absent (`None`), a number,
or a string — the shapes taken by the `longitude` / `latitude` entries of the
`parameter` dict. -/
inductive PyVal where
  | none
  | num (q : ℚ)
  | str (s : String)
deriving DecidableEq, Repr

/-- Numeric value of a digit list (most significant first). -/
def digitsVal (l : List Char) : ℕ :=
  l.foldl (fun a c => 10 * a + (c.toNat - 48)) 0

/-- Exponent part of a float literal: the characters after `e`/`E`. -/
def parseFloatExp (mant : ℚ) (t : List Char) : Option ℚ :=
  let p : ℤ × List Char :=
    match t with
    | '-' :: r => (-1, r)
    | '+' :: r => (1, r)
    | _ => (1, t)
  let ed := p.2.takeWhile Char.isDigit
  let rest := p.2.dropWhile Char.isDigit
  if ed.isEmpty || !rest.isEmpty then none
  else some (mant * (10 : ℚ) ^ (p.1 * (digitsVal ed : ℤ)))

/-- Python `float(s)` on a string: optional surrounding whitespace, optional
sign, decimal digits with an optional point, optional exponent. -/
def parseFloat (s : String) : Option ℚ :=
  let cs := s.trim.toList
  let p : ℚ × List Char :=
    match cs with
    | '-' :: t => (-1, t)
    | '+' :: t => (1, t)
    | _ => (1, cs)
  let ip := p.2.takeWhile Char.isDigit
  let rest1 := p.2.dropWhile Char.isDigit
  let q : List Char × List Char :=
    match rest1 with
    | '.' :: t => (t.takeWhile Char.isDigit, t.dropWhile Char.isDigit)
    | _ => ([], rest1)
  if ip.isEmpty && q.1.isEmpty then none
  else
    let mant : ℚ := p.1 * ((digitsVal ip : ℚ) + (digitsVal q.1 : ℚ) / (10 : ℚ) ^ q.1.length)
    match q.2 with
    | [] => some mant
    | 'e' :: t => parseFloatExp mant t
    | 'E' :: t => parseFloatExp mant t
    | _ => none

/-- Python `float(x)` on a dict value: numbers pass through, strings are
parsed, `None` raises (`TypeError`), a parse failure raises (`ValueError`). -/
def pyFloat : PyVal → Option ℚ
  | .none => none
  | .num q => some q
  | .str s => parseFloat s

/-- The `parameter` dict assembled by the input form (`param` in the source):
the new-assignment request. -/
structure Param where
  longitude : PyVal
  latitude : PyVal
  alamat_lokasi : String
  jenis_objek : String
  pemberi_tugas : String
  nomor_kontrak : Option String
  tahun : ℚ
  luas_tanah : ℚ
  luas_bangunan : ℚ
  tujuan_penilaian : String
  jenis_transaksi : String
  kepemilikan : String
  dokumen_kepemilikan : String
deriving DecidableEq, Repr

/-- A geocoder stub: `geocode(address)` either raises (`Option.none`) or
returns a list of results, each carrying `(lat, lng)` under
`result['geometry']['location']`. -/
abbrev Geocoder := String → Option (List (ℚ × ℚ))

/-- `AgenticView.validate_locations`: try `float` on both coordinate entries;
on any failure fall back to geocoding `alamat_lokasi` and take the first
result; on failure of that too, report the error and return `None`.
On success both entries are overwritten with the resolved floats. -/
def validate_locations (geocode : Geocoder) (p : Param) : Option Param :=
  match pyFloat p.longitude, pyFloat p.latitude with
  | some lon, some lat => some { p with longitude := .num lon, latitude := .num lat }
  | _, _ =>
    match geocode p.alamat_lokasi with
    | none => none
    | some [] => none
    | some ((lat, lng) :: _) => some { p with longitude := .num lng, latitude := .num lat }

/-- A row of the `objek_penilaian` table (the columns the query touches:
the ten selected columns, plus `longitude` which the `WHERE` clause guards,
with `geog` left to the distance collaborator). -/
structure StoredRec where
  pemberi_tugas : String
  jenis_objek_text : String
  cabang_text : String
  divisi : String
  tahun_kontrak : ℚ
  alamat_lokasi : String
  keterangan : String
  kepemilikan : String
  dokumen_kepemilikan : String
  tujuan_penugasan_text : String
  longitude : ℚ
deriving DecidableEq, Repr

/-- A row of the dataframe returned by `find_neighbour`: the ten selected
columns plus the computed `distance_m`. -/
structure NRow where
  pemberi_tugas : String
  jenis_objek_text : String
  cabang_text : String
  divisi : String
  tahun_kontrak : ℚ
  alamat_lokasi : String
  keterangan : String
  kepemilikan : String
  dokumen_kepemilikan : String
  tujuan_penugasan_text : String
  distance_m : ℚ
deriving DecidableEq, Repr

/-- Projection of a stored row to a result row, with the computed distance. -/
def projD (d : ℚ) (t : StoredRec) : NRow :=
  { pemberi_tugas := t.pemberi_tugas
    jenis_objek_text := t.jenis_objek_text
    cabang_text := t.cabang_text
    divisi := t.divisi
    tahun_kontrak := t.tahun_kontrak
    alamat_lokasi := t.alamat_lokasi
    keterangan := t.keterangan
    kepemilikan := t.kepemilikan
    dokumen_kepemilikan := t.dokumen_kepemilikan
    tujuan_penugasan_text := t.tujuan_penugasan_text
    distance_m := d }

/-- `ST_Distance(t.geog, q.pt)`: geodesic distance from the query point
`(lon, lat)` to a stored record's position, an external PostGIS computation. -/
abbrev DistFn := ℚ → ℚ → StoredRec → ℚ

/-- Contract of the SQL `ORDER BY distance_m`: some permutation of the rows,
non-decreasing in `distance_m` (tie order is not specified by SQL). -/
def DbSortAscOK (f : List NRow → List NRow) : Prop :=
  ∀ l, List.Perm (f l) l ∧ (f l).Pairwise (fun a b => a.distance_m ≤ b.distance_m)

/-- The `WHERE` clause of the neighbour query:
`ST_DWithin(t.geog, q.pt, distance_m) AND t.longitude <> 0 AND
ST_Distance(t.geog, q.pt) > 0` (for geography, `ST_DWithin` is distance at
most the radius). -/
def wherePred (dist : DistFn) (radius lon lat : ℚ) (t : StoredRec) : Bool :=
  decide (dist lon lat t ≤ radius) && decide (0 < dist lon lat t) &&
    decide (t.longitude ≠ 0)

/-- The `WHERE` clause as a proposition. -/
def qualifies (dist : DistFn) (radius lon lat : ℚ) (t : StoredRec) : Prop :=
  dist lon lat t ≤ radius ∧ 0 < dist lon lat t ∧ t.longitude ≠ 0

instance (dist : DistFn) (radius lon lat : ℚ) (t : StoredRec) :
    Decidable (qualifies dist radius lon lat t) := by
  unfold qualifies
  infer_instance

/-- `AgenticView.find_neighbour`: the SQL query.  A stored row is kept iff
it passes the `WHERE` clause; rows are ordered by distance ascending
(`dbSort`) and the result is capped by `LIMIT 20`. -/
def find_neighbour (dbSort : List NRow → List NRow) (dist : DistFn)
    (store : List StoredRec) (distance_m : ℚ) (lon lat : ℚ) : List NRow :=
  (dbSort ((store.filter (wherePred dist distance_m lon lat)).map
    (fun t => projD (dist lon lat t) t))).take 20

/-- A chat-model stub for `responses.create(model=…, instructions=…, input=…)`:
given the instructions and the input text it either raises (`Option.none`)
or returns `output_text`. -/
abbrev ChatModel := String → String → Option String

/-- The `CERT` block of `_similarity_row`. -/
def CERT : String :=
  "Dokumen kepemilikan levels (strongest to weakest):\n" ++
  "1  Sertifikat Hak Milik (SHM) = full ownership\n" ++
  "2  Sertifikat Hak Guna Bangunan (HGB) = right to build, upgradable to SHM\n" ++
  "3  Sertifikat Hak Pakai (SHP) = right to use, time-limited"

/-- The `instruksi` string of `_similarity_row`. -/
def instruksi : String :=
  CERT ++ "\n\n" ++
  "Compare the two short land-valuation records and answer with the single line: x% " ++
  "where x is an integer 0-100 expressing how likely these two records refer to the SAME object."

/-- Rendering of a rational for prompt interpolation. -/
def ratStr (q : ℚ) : String := toString q.num ++ "/" ++ toString q.den

/-- The `user` description string built by `_similarity_row` from the
request (the arguments `_add_similarity_column` passes in). -/
def userDesc (p : Param) : String :=
  "Pemberi tugas: " ++ p.pemberi_tugas ++ ", tahun: " ++ ratStr p.tahun ++
  ", jenis objek: " ++ p.jenis_objek ++ ", kepemilikan: " ++ p.kepemilikan ++
  ", dokumen: " ++ p.dokumen_kepemilikan ++ ", tujuan: " ++ p.tujuan_penilaian

/-- The `db` description string built by `_similarity_row` from a row. -/
def dbDesc (r : NRow) : String :=
  "Pemberi tugas: " ++ r.pemberi_tugas ++ ", tahun: " ++ ratStr r.tahun_kontrak ++
  ", jenis objek: " ++ r.jenis_objek_text ++ ", kepemilikan: " ++ r.kepemilikan ++
  ", dokumen: " ++ r.dokumen_kepemilikan ++ ", tujuan: " ++ r.tujuan_penugasan_text

/-- The `input` argument of the similarity call. -/
def simInput (p : Param) (r : NRow) : String :=
  "User: " ++ userDesc p ++ "\nDatabase: " ++ dbDesc r

/-- Python `str.splitlines` restricted to `\n` terminators (the only ones
arising here): the empty string yields no lines. -/
def pySplitlines (s : String) : List String :=
  if s = "" then [] else s.splitOn "\n"

/-- `resp.output_text.strip().splitlines()[0]`: `Option.none` is the
`IndexError` raised when the stripped reply has no lines. -/
def firstStrippedLine (s : String) : Option String :=
  match pySplitlines s.trim with
  | [] => none
  | l :: _ => some l

/-- `AgenticView._similarity_row`: one scoring call; an exception from the
model call or from the first-line extraction propagates. -/
def similarity_row (model : ChatModel) (p : Param) (r : NRow) : Option String :=
  match model instruksi (simInput p r) with
  | none => none
  | some out => firstStrippedLine out

/-- Pointwise update of a slot table (completion of one task writes its
result into its own slot). -/
def upd (f : ℕ → Option String) (i : ℕ) (v : Option String) : ℕ → Option String :=
  fun j => if j = i then v else f j

/-- Fan-in of `asyncio.gather`: tasks complete in the order `sched`; each
completion stores its task's outcome in the slot of that task's position.
Unwritten slots stay `Option.none`. -/
def fanInF (tasks : ℕ → Option String) (sched : List ℕ) : ℕ → Option String :=
  sched.foldl (fun acc i => upd acc i (tasks i)) (fun _ => none)

/-- Collect a list of outcomes, failing if any one failed (`asyncio.gather`
propagates the first exception). -/
def optionSequence {α : Type} : List (Option α) → Option (List α)
  | [] => some []
  | none :: _ => none
  | some a :: t =>
    match optionSequence t with
    | none => none
    | some l => some (a :: l)

/-- `AgenticView._add_similarity_column`: an empty dataframe gets an empty
`similarity_pct` column; otherwise one `_similarity_row` task per row is
issued and `asyncio.gather` pairs each outcome with its row by position.
`sched` is the order in which the tasks happen to complete. -/
def add_similarity_column (model : ChatModel) (sched : List ℕ) (p : Param)
    (rows : List NRow) : Option (List (NRow × String)) :=
  if rows.isEmpty then some []
  else
    match optionSequence ((List.range rows.length).map
        (fanInF (fun i => (rows.map (similarity_row model p)).getD i none) sched)) with
    | none => none
    | some scores => some (rows.zip scores)

/-- `pct_to_float` (local to `get_result`): drop every `%`, strip, parse as
float; any failure gives `0`. -/
def pct_to_float (s : String) : ℚ :=
  match parseFloat ((s.replace "%" "").trim) with
  | some q => q
  | none => 0

/-- The `sim_num` value of a scored row: `pct_to_float` of its
`similarity_pct` entry. -/
def simNum (r : NRow × String) : ℚ := pct_to_float r.2

/-- Contract of `sort_values("sim_num", ascending=False)` with the default
`kind='quicksort'`: some permutation of the input, non-increasing in
`sim_num`.  Stability on ties is deliberately NOT part of the contract —
pandas documents that only `mergesort`/`stable` are stable kinds. -/
def PdSortDescOK (f : List (NRow × String) → List (NRow × String)) : Prop :=
  ∀ l, List.Perm (f l) l ∧ (f l).Pairwise (fun a b => simNum b ≤ simNum a)

/-- Lines 213–221 of `get_result`: assign `sim_num`, keep only rows with
`sim_num >= 30`, sort by `sim_num` descending, drop the helper column
(the rows here carry `similarity_pct` explicitly, so dropping `sim_num`
is implicit). -/
def filterAndRank (pdSort : List (NRow × String) → List (NRow × String))
    (l : List (NRow × String)) : List (NRow × String) :=
  pdSort (l.filter (fun r => decide (30 ≤ simNum r)))

/-- The single row of the GeoDataFrame built by `create_gdf`. -/
structure GdfRow where
  longitude : PyVal
  latitude : PyVal
  jenis_objek : String
  pemberi_tugas : String
  nomor_kontrak : Option String
  tahun : ℚ
  luas_tanah : ℚ
  luas_bangunan : ℚ
  tujuan_penilaian : String
  jenis_transaksi : String
  alamat_lokasi : String
  geometry : PyVal × PyVal
deriving DecidableEq, Repr

/-- `AgenticView.create_gdf`. -/
def create_gdf (p : Param) : GdfRow :=
  { longitude := p.longitude
    latitude := p.latitude
    jenis_objek := p.jenis_objek
    pemberi_tugas := p.pemberi_tugas
    nomor_kontrak := p.nomor_kontrak
    tahun := p.tahun
    luas_tanah := p.luas_tanah
    luas_bangunan := p.luas_bangunan
    tujuan_penilaian := p.tujuan_penilaian
    jenis_transaksi := p.jenis_transaksi
    alamat_lokasi := p.alamat_lokasi
    geometry := (p.longitude, p.latitude) }

/-- Rendering of a `PyVal` for prompt interpolation. -/
def pyValStr : PyVal → String
  | .none => "None"
  | .num q => ratStr q
  | .str s => s

/-- Rendering of one scored row for the summary prompt (the dataframe's
`to_json(orient="records")` serialization, abstracted field by field). -/
def renderScored (r : NRow × String) : String :=
  "(pemberi_tugas: " ++ r.1.pemberi_tugas ++ ", jenis_objek_text: " ++ r.1.jenis_objek_text ++
  ", cabang_text: " ++ r.1.cabang_text ++ ", divisi: " ++ r.1.divisi ++
  ", tahun_kontrak: " ++ ratStr r.1.tahun_kontrak ++ ", alamat_lokasi: " ++ r.1.alamat_lokasi ++
  ", keterangan: " ++ r.1.keterangan ++ ", kepemilikan: " ++ r.1.kepemilikan ++
  ", dokumen_kepemilikan: " ++ r.1.dokumen_kepemilikan ++
  ", tujuan_penugasan_text: " ++ r.1.tujuan_penugasan_text ++
  ", distance_m: " ++ ratStr r.1.distance_m ++ ", similarity_pct: " ++ r.2 ++ ")"

/-- Rendering of the scored-candidate table (`fetched`). -/
def renderTable (l : List (NRow × String)) : String :=
  String.intercalate ", " (l.map renderScored)

/-- Rendering of the prospect record (`prospect`). -/
def renderGdf (g : GdfRow) : String :=
  "(longitude: " ++ pyValStr g.longitude ++ ", latitude: " ++ pyValStr g.latitude ++
  ", jenis_objek: " ++ g.jenis_objek ++ ", pemberi_tugas: " ++ g.pemberi_tugas ++
  ", tahun: " ++ ratStr g.tahun ++ ", luas_tanah: " ++ ratStr g.luas_tanah ++
  ", luas_bangunan: " ++ ratStr g.luas_bangunan ++ ", tujuan_penilaian: " ++ g.tujuan_penilaian ++
  ", jenis_transaksi: " ++ g.jenis_transaksi ++ ", alamat_lokasi: " ++ g.alamat_lokasi ++ ")"

/-- The prompt of `get_llm_response_of_object`. -/
def objectPrompt (tbl : List (NRow × String)) (g : GdfRow) : String :=
  "You are a speaking assistant tasked with assisting an assessment firm to:\n" ++
  "1. Prevent conflicts of interest\n2. Avoid duplication of work\n" ++
  "3. Avoid re-evaluating the same object\n\n" ++
  "The following is data on new assignment prospects :\n" ++ renderGdf g ++ "\n\n" ++
  "And the following is data on assignments previously performed by the firm :\n" ++
  renderTable tbl ++ "\n\n" ++
  "The similarity_pct column shows the level of similarity (0-100%) between a user object and an object in the database.\n" ++
  "Your task:\n- Compare each object in prospected_jobs with the list in fetched_context.\n" ++
  "- Identify any objects that are potentially identical, similar, or potentially conflicting.\n" ++
  "- Explain the reasons for the similarity (e.g., similar addresses, close coordinates, same assignor name, high similarity_pct value, etc.).\n\n" ++
  "NOTE : Use Bahasa Indonesia!"

/-- A single-argument model stub for `responses.create(model=…, input=…)`. -/
abbrev TextModel := String → Option String

/-- `AgenticView.get_llm_response_of_object`. -/
def get_llm_response_of_object (modelObj : TextModel)
    (tbl : List (NRow × String)) (g : GdfRow) : Option String :=
  modelObj (objectPrompt tbl g)

/-- The class attribute `DO_NEWS` of the source (`False`: web search off). -/
def DO_NEWS : Bool := false

/-- The prompt of `get_llm_response_of_task_giver` (quote characters of the
source elided). -/
def newsPrompt (task_giver : String) : String :=
  "News about the " ++ task_giver ++ " case in Indonesia, create a list!\n" ++
  "The case : corruption, scandal, or anything bad about the company.\n" ++
  "The output MUST in a list, and show ONLY the news and links!\n" ++
  "The company name MUST the same, DONT show other news! If you found no news about this company, just give this output : Aman!\n" ++
  "NOTE : The company name MUST EXACTLY THE SAME and use Bahasa Indonesia."

/-- `AgenticView.get_llm_response_of_task_giver`: with the feature flag off
the sentinel is returned with no model call; otherwise the web-search model
is consulted. -/
def get_llm_response_of_task_giver (doNews : Bool) (modelNews : TextModel)
    (task_giver : String) : Option String :=
  if !doNews then some "Aman!" else modelNews (newsPrompt task_giver)

/-- The `{"summary": …, "client_sentiment": …}` dict of `_build_json_output`. -/
structure Report where
  summary : String
  client_sentiment : String
deriving DecidableEq, Repr

/-- `AgenticView._build_json_output`. -/
def build_json_output (summary client_sentiment : String) : Report :=
  { summary := summary, client_sentiment := client_sentiment }

/-- `AgenticView.get_result`.  Outcome: `Option.none` is an exception
propagating to the caller; `some Option.none` is the `(None, None)`
"no result" signal after a failed coordinate resolution; `some (some …)` is
the `(table, report)` pair.  `doNews` is the `DO_NEWS` class attribute
(`false` in the source), `sched` the completion order of the scoring tasks. -/
def get_result (geocode : Geocoder) (dist : DistFn) (store : List StoredRec)
    (model : ChatModel) (modelObj : TextModel) (modelNews : TextModel)
    (dbSort : List NRow → List NRow)
    (pdSort : List (NRow × String) → List (NRow × String))
    (doNews : Bool) (sched : List ℕ) (p : Param) :
    Option (Option (List (NRow × String) × Report)) :=
  match validate_locations geocode p with
  | none => some none
  | some p1 =>
    match pyFloat p1.longitude, pyFloat p1.latitude with
    | some lon, some lat =>
      match add_similarity_column model sched p1
          (find_neighbour dbSort dist store 10000 lon lat) with
      | none => none
      | some scored =>
        match get_llm_response_of_object modelObj (filterAndRank pdSort scored) (create_gdf p1),
              get_llm_response_of_task_giver doNews modelNews p1.pemberi_tugas with
        | some summary, some sentiment =>
          some (some (filterAndRank pdSort scored, build_json_output summary sentiment))
        | _, _ => none
    | _, _ => none

/-
Concrete sorters satisfying the sort contracts, and witnesses that the
contracts do not pin down the order of equal-keyed elements.
-/

/-- Non-increasing-by-`sim_num` comparison on scored rows. -/
def rdesc (a b : NRow × String) : Prop := simNum b ≤ simNum a

instance : DecidableRel rdesc :=
  fun a b => inferInstanceAs (Decidable (simNum b ≤ simNum a))

instance : IsTotal (NRow × String) rdesc :=
  ⟨fun a b => le_total (simNum b) (simNum a)⟩

instance : IsTrans (NRow × String) rdesc :=
  ⟨fun _ _ _ h1 h2 => le_trans h2 h1⟩

/-- Non-decreasing-by-`distance_m` comparison on neighbour rows. -/
def rasc (a b : NRow) : Prop := a.distance_m ≤ b.distance_m

instance : DecidableRel rasc :=
  fun a b => inferInstanceAs (Decidable (a.distance_m ≤ b.distance_m))

instance : IsTotal NRow rasc := ⟨fun a b => le_total a.distance_m b.distance_m⟩

instance : IsTrans NRow rasc := ⟨fun _ _ _ h1 h2 => le_trans h1 h2⟩

/-- A sorter meeting the descending contract that keeps ties in input order. -/
def pdSortStable : List (NRow × String) → List (NRow × String) :=
  List.insertionSort rdesc

/-- A sorter meeting the descending contract that reverses ties. -/
def badPdSort : List (NRow × String) → List (NRow × String) :=
  fun l => List.insertionSort rdesc l.reverse

/-- A sorter meeting the ascending contract of the SQL `ORDER BY`. -/
def dbSortStable : List NRow → List NRow :=
  List.insertionSort rasc

theorem pdSortStable_ok : PdSortDescOK pdSortStable := fun l =>
  ⟨List.perm_insertionSort rdesc l, List.sorted_insertionSort rdesc l⟩

theorem badPdSort_ok : PdSortDescOK badPdSort := fun l =>
  ⟨(List.perm_insertionSort rdesc l.reverse).trans (List.reverse_perm l),
   List.sorted_insertionSort rdesc l.reverse⟩

theorem dbSortStable_ok : DbSortAscOK dbSortStable := fun l =>
  ⟨List.perm_insertionSort rasc l, List.sorted_insertionSort rasc l⟩

/-
Fan-in lemmas: the slot a completion writes depends only on the task's
position, so any completion order covering the same set of tasks produces
the same slot table.
-/

theorem foldl_upd_not_mem (tasks : ℕ → Option String) :
    ∀ (sched : List ℕ) (f : ℕ → Option String) (i : ℕ), i ∉ sched →
      sched.foldl (fun acc j => upd acc j (tasks j)) f i = f i
  | [], _, _, _ => rfl
  | j :: t, f, i, h => by
    have h1 : i ∉ t := fun hm => h (List.mem_cons_of_mem _ hm)
    have h2 : i ≠ j := fun he => h (he ▸ List.mem_cons_self _ _)
    rw [List.foldl_cons, foldl_upd_not_mem tasks t _ i h1]
    simp [upd, h2]

theorem foldl_upd_mem (tasks : ℕ → Option String) :
    ∀ (sched : List ℕ) (f : ℕ → Option String) (i : ℕ), i ∈ sched →
      sched.foldl (fun acc j => upd acc j (tasks j)) f i = tasks i
  | [], _, i, h => absurd h (List.not_mem_nil i)
  | j :: t, f, i, h => by
    by_cases hm : i ∈ t
    · rw [List.foldl_cons]
      exact foldl_upd_mem tasks t _ i hm
    · have hij : i = j := by
        rcases List.mem_cons.mp h with h | h
        · exact h
        · exact absurd h hm
      rw [List.foldl_cons, foldl_upd_not_mem tasks t _ i hm]
      simp [upd, hij]

theorem fanInF_mem {tasks : ℕ → Option String} {sched : List ℕ} {i : ℕ}
    (h : i ∈ sched) : fanInF tasks sched i = tasks i :=
  foldl_upd_mem tasks sched _ i h

theorem fanInF_not_mem {tasks : ℕ → Option String} {sched : List ℕ} {i : ℕ}
    (h : i ∉ sched) : fanInF tasks sched i = none :=
  foldl_upd_not_mem tasks sched _ i h

theorem map_getD_range {α : Type} : ∀ (l : List α) (d : α),
    (List.range l.length).map (fun i => l.getD i d) = l
  | [], _ => rfl
  | a :: t, d => by
    rw [List.length_cons, List.range_succ_eq_map, List.map_cons, List.map_map]
    have h : ((fun i => (a :: t).getD i d) ∘ Nat.succ) = fun i => t.getD i d := by
      funext i
      simp [List.getD_cons_succ]
    rw [h]
    simp only [List.getD_cons_zero]
    rw [map_getD_range t d]

theorem optionSequence_map {α β : Type} (f : α → Option β) (g : α → β) :
    ∀ (l : List α), (∀ x ∈ l, f x = some (g x)) →
      optionSequence (l.map f) = some (l.map g)
  | [], _ => rfl
  | a :: t, h => by
    simp only [List.map_cons]
    rw [h a (List.mem_cons_self a t)]
    simp only [optionSequence]
    rw [optionSequence_map f g t (fun x hx => h x (List.mem_cons_of_mem _ hx))]

theorem zip_self_map {α β : Type} (g : α → β) :
    ∀ l : List α, l.zip (l.map g) = l.map (fun a => (a, g a))
  | [] => rfl
  | a :: t => by
    rw [List.map_cons, List.zip_cons_cons, zip_self_map g t, List.map_cons]

/-- Core behaviour of the scoring fan-out: when the completion order covers
exactly the task positions and every individual call succeeds, the column is
the per-row score list, paired to the rows by position. -/
theorem add_similarity_column_eq (model : ChatModel) (p : Param) (rows : List NRow)
    (sched : List ℕ) (f : NRow → String)
    (hsched : ∀ i, i ∈ sched ↔ i ∈ List.range rows.length)
    (hall : ∀ r ∈ rows, similarity_row model p r = some (f r)) :
    add_similarity_column model sched p rows = some (rows.map (fun r => (r, f r))) := by
  unfold add_similarity_column
  by_cases hr : rows.isEmpty
  · rw [if_pos hr]
    cases rows with
    | nil => rfl
    | cons a t => simp [List.isEmpty] at hr
  · rw [if_neg hr]
    have h1 : (List.range rows.length).map
        (fanInF (fun i => (rows.map (similarity_row model p)).getD i none) sched)
        = (List.range rows.length).map
        (fun i => (rows.map (similarity_row model p)).getD i none) :=
      List.map_congr_left (fun i hi => fanInF_mem ((hsched i).mpr hi))
    rw [h1]
    have h2 : (List.range rows.length).map
        (fun i => (rows.map (similarity_row model p)).getD i none)
        = rows.map (similarity_row model p) := by
      have := map_getD_range (rows.map (similarity_row model p)) none
      rwa [List.length_map] at this
    rw [h2, optionSequence_map (similarity_row model p) f rows hall]
    show some (rows.zip (rows.map f)) = some (rows.map (fun r => (r, f r)))
    rw [zip_self_map]

/-- The scoring fan-out is insensitive to the completion order: two orders
covering the same set of task positions give identical outcomes. -/
theorem add_similarity_column_sched_indep (model : ChatModel) (p : Param)
    (rows : List NRow) {s1 s2 : List ℕ} (h : ∀ i, i ∈ s1 ↔ i ∈ s2) :
    add_similarity_column model s1 p rows = add_similarity_column model s2 p rows := by
  unfold add_similarity_column
  have hf : fanInF (fun i => (rows.map (similarity_row model p)).getD i none) s1
      = fanInF (fun i => (rows.map (similarity_row model p)).getD i none) s2 := by
    funext i
    by_cases hi : i ∈ s1
    · rw [fanInF_mem hi, fanInF_mem ((h i).mp hi)]
    · rw [fanInF_not_mem hi, fanInF_not_mem (fun hm => hi ((h i).mpr hm))]
  rw [hf]

theorem wherePred_iff (dist : DistFn) (radius lon lat : ℚ) (t : StoredRec) :
    wherePred dist radius lon lat t = true ↔ qualifies dist radius lon lat t := by
  simp [wherePred, qualifies, and_assoc]

/-- Every row of a successful scoring result is one of the queried
neighbour rows. -/
theorem add_similarity_column_sub (model : ChatModel) (sched : List ℕ) (p : Param)
    (rows : List NRow) (scored : List (NRow × String))
    (h : add_similarity_column model sched p rows = some scored) :
    ∀ x ∈ scored, x.1 ∈ rows := by
  unfold add_similarity_column at h
  by_cases hr : rows.isEmpty
  · rw [if_pos hr] at h
    intro x hx
    rw [← Option.some_inj.mp h] at hx
    exact absurd hx (List.not_mem_nil x)
  · rw [if_neg hr] at h
    rcases hs : optionSequence ((List.range rows.length).map
        (fanInF (fun i => (rows.map (similarity_row model p)).getD i none) sched)) with _ | scores
    · rw [hs] at h
      exact absurd h (by simp)
    · rw [hs] at h
      intro x hx
      rw [← Option.some_inj.mp h] at hx
      obtain ⟨a, b⟩ := x
      exact (List.of_mem_zip hx).1

/-- Every returned neighbour row is the projection of a qualifying stored
record. -/
theorem find_neighbour_mem (dbSort : List NRow → List NRow) (hs : DbSortAscOK dbSort)
    (dist : DistFn) (store : List StoredRec) (radius lon lat : ℚ) :
    ∀ r ∈ find_neighbour dbSort dist store radius lon lat,
      ∃ t ∈ store, qualifies dist radius lon lat t ∧ r = projD (dist lon lat t) t := by
  intro r hr
  have h1 : r ∈ dbSort ((store.filter (wherePred dist radius lon lat)).map
      (fun t => projD (dist lon lat t) t)) :=
    (List.take_sublist 20 _).subset hr
  have h2 : r ∈ (store.filter (wherePred dist radius lon lat)).map
      (fun t => projD (dist lon lat t) t) := (hs _).1.subset h1
  obtain ⟨t, htf, hteq⟩ := List.mem_map.mp h2
  exact ⟨t, List.mem_of_mem_filter htf,
    (wherePred_iff dist radius lon lat t).mp (List.of_mem_filter htf), hteq.symm⟩

/-- Inversion of a successful pipeline run: the intermediate values a
`(table, report)` outcome of `get_result` must have passed through. -/
theorem get_result_inv (geocode : Geocoder) (dist : DistFn) (store : List StoredRec)
    (model : ChatModel) (modelObj modelNews : TextModel)
    (dbSort : List NRow → List NRow)
    (pdSort : List (NRow × String) → List (NRow × String))
    (doNews : Bool) (sched : List ℕ) (p : Param)
    (tbl : List (NRow × String)) (rep : Report)
    (h : get_result geocode dist store model modelObj modelNews dbSort pdSort doNews sched p
      = some (some (tbl, rep))) :
    ∃ p1 lon lat scored summary sentiment,
      validate_locations geocode p = some p1 ∧
      pyFloat p1.longitude = some lon ∧ pyFloat p1.latitude = some lat ∧
      add_similarity_column model sched p1
        (find_neighbour dbSort dist store 10000 lon lat) = some scored ∧
      get_llm_response_of_object modelObj (filterAndRank pdSort scored) (create_gdf p1)
        = some summary ∧
      get_llm_response_of_task_giver doNews modelNews p1.pemberi_tugas = some sentiment ∧
      tbl = filterAndRank pdSort scored ∧ rep = build_json_output summary sentiment := by
  unfold get_result at h
  split at h
  · exact absurd h (by simp)
  · rename_i p1 hval
    split at h
    · rename_i lon lat hlon hlat
      split at h
      · exact absurd h (by simp)
      · rename_i scored hscored
        split at h
        · rename_i summary sentiment hsum hsent
          have h2 : (filterAndRank pdSort scored, build_json_output summary sentiment)
              = (tbl, rep) := by
            simpa using h
          exact ⟨p1, lon, lat, scored, summary, sentiment, hval, hlon, hlat, hscored,
            hsum, hsent, (congrArg Prod.fst h2).symm, (congrArg Prod.snd h2).symm⟩
        · exact absurd h (by simp_all)
    · exact absurd h (by simp)

/-
Concrete inputs used by counterexamples and witnesses.
-/

/-- A request with the given coordinate entries and fixed form values. -/
def mkParam (lon lat : PyVal) : Param :=
  { longitude := lon
    latitude := lat
    alamat_lokasi := "Jl. Contoh 1"
    jenis_objek := "Ruko"
    pemberi_tugas := "PT Contoh"
    nomor_kontrak := none
    tahun := 2024
    luas_tanah := 180
    luas_bangunan := 140
    tujuan_penilaian := "Asuransi"
    jenis_transaksi := "Monitoring"
    kepemilikan := "tunggal"
    dokumen_kepemilikan := "Sertifikat Hak Milik" }

/-- A neighbour row at the given distance, other fields blank. -/
def mkRow (d : ℚ) : NRow :=
  { pemberi_tugas := ""
    jenis_objek_text := ""
    cabang_text := ""
    divisi := ""
    tahun_kontrak := 0
    alamat_lokasi := ""
    keterangan := ""
    kepemilikan := ""
    dokumen_kepemilikan := ""
    tujuan_penugasan_text := ""
    distance_m := d }

/-- A stored record with the given longitude, other fields blank. -/
def mkRec (lo : ℚ) : StoredRec :=
  { pemberi_tugas := ""
    jenis_objek_text := ""
    cabang_text := ""
    divisi := ""
    tahun_kontrak := 0
    alamat_lokasi := ""
    keterangan := ""
    kepemilikan := ""
    dokumen_kepemilikan := ""
    tujuan_penugasan_text := ""
    longitude := lo }

/-
Claim C4 — invariants of coordinate resolution.
-/

/-- Claim C4 counterexample: the request carrying the parseable strings
"999" and "95" is accepted by `validate_locations` with longitude 999 and
latitude 95 — both outside the geographic bounds ([-180,180], [-90,90]) the
claim asserts — and the pipeline proceeds instead of rejecting it. -/
theorem C4_counterexample :
    validate_locations (fun _ => none) (mkParam (.str "999") (.str "95"))
      = some (mkParam (.num 999) (.num 95))
    ∧ ¬((95 : ℚ) ≤ 90) ∧ ¬((999 : ℚ) ≤ 180) :=
  ⟨by with_unfolding_all decide, by norm_num, by norm_num⟩

/-- Claim C4 (amended): after `validate_locations` either the request is
rejected (`None`) or both coordinate entries hold resolved numbers; the code
performs no range (or finiteness) check on them. -/
theorem C4_resolution_dichotomy (g : Geocoder) (p : Param) :
    validate_locations g p = none ∨
      ∃ lon lat : ℚ, validate_locations g p
        = some { p with longitude := .num lon, latitude := .num lat } := by
  unfold validate_locations
  rcases hlon : pyFloat p.longitude with _ | lon
  · rcases hg : g p.alamat_lokasi with _ | gl
    · exact Or.inl rfl
    · rcases gl with _ | ⟨⟨la, lo⟩, rest⟩
      · exact Or.inl rfl
      · exact Or.inr ⟨lo, la, rfl⟩
  · rcases hlat : pyFloat p.latitude with _ | lat
    · rcases hg : g p.alamat_lokasi with _ | gl
      · exact Or.inl rfl
      · rcases gl with _ | ⟨⟨la, lo⟩, rest⟩
        · exact Or.inl rfl
        · exact Or.inr ⟨lo, la, rfl⟩
    · exact Or.inr ⟨lon, lat, rfl⟩

/-
Claim C7 — pass-through of parseable coordinates.
-/

/-- Claim C7: a request whose coordinate entries both parse as numbers is
passed through with exactly those numeric values, and the result is the same
for every geocoder — the external geocode call is never consulted. -/
theorem C7_passthrough (p : Param) (lon lat : ℚ)
    (h1 : pyFloat p.longitude = some lon) (h2 : pyFloat p.latitude = some lat)
    (g : Geocoder) :
    validate_locations g p
      = some { p with longitude := .num lon, latitude := .num lat } := by
  unfold validate_locations
  rw [h1, h2]

/-- Witness for C7 at a concrete request ("106.8" / -6.2). -/
theorem C7_passthrough_witness :
    pyFloat (PyVal.str "106.8") = some ((534 : ℚ)/5)
    ∧ pyFloat (PyVal.num (-(31 : ℚ)/5)) = some (-(31 : ℚ)/5)
    ∧ validate_locations (fun _ => none) (mkParam (.str "106.8") (.num (-(31 : ℚ)/5)))
      = some (mkParam (.num ((534 : ℚ)/5)) (.num (-(31 : ℚ)/5))) :=
  ⟨by with_unfolding_all decide, by with_unfolding_all decide,
    C7_passthrough (mkParam (.str "106.8") (.num (-(31 : ℚ)/5))) ((534 : ℚ)/5)
      (-(31 : ℚ)/5) (by with_unfolding_all decide) (by with_unfolding_all decide) (fun _ => none)⟩

/-
Claim C10 — fallback to geocoding on unparseable explicit coordinates.
-/

/-- Claim C10: when either coordinate entry fails `float()`, the resolution
silently geocodes the address; the first geocode hit overwrites BOTH
coordinate entries, and the request is rejected only when the geocoder
raises or returns zero results. -/
theorem C10_fallback (p : Param) (g : Geocoder)
    (h : pyFloat p.longitude = none ∨ pyFloat p.latitude = none) :
    (∀ la lo rest, g p.alamat_lokasi = some ((la, lo) :: rest) →
        validate_locations g p
          = some { p with longitude := .num lo, latitude := .num la })
    ∧ ((g p.alamat_lokasi = none ∨ g p.alamat_lokasi = some []) →
        validate_locations g p = none) := by
  have hred : validate_locations g p = (match g p.alamat_lokasi with
      | none => none
      | some [] => none
      | some ((la, lo) :: _) =>
          some { p with longitude := .num lo, latitude := .num la }) := by
    unfold validate_locations
    rcases h with h | h
    · rw [h]
    · rcases hl : pyFloat p.longitude with _ | lon
      · rfl
      · rw [h]
  constructor
  · intro la lo rest hg
    rw [hred, hg]
  · intro hg
    rcases hg with hg | hg <;> rw [hred, hg]

/-- Witness for C10: longitude "abc" is unparseable even though latitude 5
parses, so the geocoder's hit (lat -6.2, lng 106.8) overwrites both. -/
theorem C10_fallback_witness :
    (pyFloat (PyVal.str "abc") = none ∨ pyFloat (PyVal.num 5) = none)
    ∧ validate_locations (fun _ => some [(-(31 : ℚ)/5, (534 : ℚ)/5)])
        (mkParam (.str "abc") (.num 5))
      = some (mkParam (.num ((534 : ℚ)/5)) (.num (-(31 : ℚ)/5))) :=
  ⟨Or.inl (by with_unfolding_all decide),
    (C10_fallback (mkParam (.str "abc") (.num 5))
        (fun _ => some [(-(31 : ℚ)/5, (534 : ℚ)/5)]) (Or.inl (by with_unfolding_all decide))).1
      (-(31 : ℚ)/5) ((534 : ℚ)/5) [] rfl⟩

/-
Claim C6 — unresolvable coordinates abort the pipeline with a signal.
-/

/-- Claim C6: when coordinate resolution fails, `get_result` returns the
`(None, None)` "no result" signal — not an exception — and the outcome is
identical for every store, distance function, model and sorter, so neither
the spatial query nor any similarity scoring is attempted. -/
theorem C6_abort_no_result (g : Geocoder) (p : Param)
    (hv : validate_locations g p = none)
    (dist : DistFn) (store : List StoredRec) (model : ChatModel)
    (modelObj modelNews : TextModel) (dbSort : List NRow → List NRow)
    (pdSort : List (NRow × String) → List (NRow × String))
    (doNews : Bool) (sched : List ℕ) :
    get_result g dist store model modelObj modelNews dbSort pdSort doNews sched p
      = some none := by
  unfold get_result
  rw [hv]

/-- Witness for C6: unparseable coordinates and a geocoder that raises. -/
theorem C6_abort_no_result_witness :
    validate_locations (fun _ => none) (mkParam (.str "abc") .none) = none
    ∧ get_result (fun _ => none) (fun _ _ _ => 0) [mkRec 1] (fun _ _ => some "85%")
        (fun _ => some "ok") (fun _ => some "ok") dbSortStable pdSortStable false [0]
        (mkParam (.str "abc") .none)
      = some none :=
  ⟨by with_unfolding_all decide,
    C6_abort_no_result (fun _ => none) (mkParam (.str "abc") .none) (by with_unfolding_all decide)
      (fun _ _ _ => 0) [mkRec 1] (fun _ _ => some "85%") (fun _ => some "ok")
      (fun _ => some "ok") dbSortStable pdSortStable false [0]⟩

/-
Claim C1 — the scoring fan-out: count, pairing, and score range.
-/

/-- Claim C1 counterexample: with a model replying "150%" the batch
completes and the score recorded for the candidate is the verbatim string
"150%", whose numeric value 150 lies outside [0,100]: the code does not
constrain scores to [0,100]. -/
theorem C1_counterexample :
    add_similarity_column (fun _ _ => some "150%") [0] (mkParam (.num 1) (.num 1)) [mkRow 1]
      = some [(mkRow 1, "150%")]
    ∧ pct_to_float "150%" = 150 ∧ ¬(pct_to_float "150%" ≤ 100) :=
  ⟨by with_unfolding_all decide, by with_unfolding_all decide,
   by with_unfolding_all decide⟩

/-- Claim C1 (amended): when the completion order covers exactly the task
positions and every per-candidate call yields a reply with a first line, the
scorer produces exactly one score per candidate — the output pairs each row
with its own score by position, whatever the completion order; each score is
the verbatim first line of the stripped model reply (its numeric value is
not forced into [0,100] by the code). -/
theorem C1_scoring_pairs (model : ChatModel) (p : Param) (rows : List NRow)
    (sched : List ℕ) (f : NRow → String)
    (hsched : List.Perm sched (List.range rows.length))
    (hall : ∀ r ∈ rows, similarity_row model p r = some (f r)) :
    add_similarity_column model sched p rows = some (rows.map (fun r => (r, f r)))
    ∧ (rows.map (fun r => (r, f r))).length = rows.length :=
  ⟨add_similarity_column_eq model p rows sched f (fun _ => hsched.mem_iff) hall,
   by simp⟩

/-- Witness for C1: one candidate, completion order [0], reply "85%". -/
theorem C1_scoring_pairs_witness :
    List.Perm [0] (List.range 1)
    ∧ (∀ r ∈ [mkRow 1], similarity_row (fun _ _ => some "85%")
        (mkParam (.num 1) (.num 1)) r = some ((fun _ => "85%") r))
    ∧ (add_similarity_column (fun _ _ => some "85%") [0] (mkParam (.num 1) (.num 1)) [mkRow 1]
        = some ([mkRow 1].map (fun r => (r, (fun _ => "85%") r)))
      ∧ ([mkRow 1].map (fun r => (r, (fun _ => "85%") r))).length = [mkRow 1].length) :=
  ⟨by decide, by with_unfolding_all decide,
    C1_scoring_pairs (fun _ _ => some "85%") (mkParam (.num 1) (.num 1)) [mkRow 1] [0]
      (fun _ => "85%") (by decide) (by with_unfolding_all decide)⟩

/-
Claim C3 — malformed replies: parse fallback versus batch abort.
-/

/-- The request used by the C3 stub. -/
def pC3 : Param := mkParam (.num 1) (.num 1)

/-- The second candidate of the C3 batch (distinguished from the first by a
field that appears in the prompt). -/
def rowC3b : NRow := { mkRow 2 with pemberi_tugas := "PT Lain" }

/-- A model stub replying with whitespace only for the first candidate and
"90%" for every other input. -/
def modelC3 : ChatModel := fun _ inp =>
  if inp = simInput pC3 (mkRow 1) then some "   " else some "90%"

/-- Claim C3 (code bug): the second candidate alone scores "90%", and a
non-numeric score string does degrade to 0 in `pct_to_float`; but a
whitespace-only reply for the first candidate makes
`strip().splitlines()[0]` raise `IndexError`, which `asyncio.gather`
propagates — the whole batch aborts (result `none`) and the second
candidate's score is discarded, instead of the first candidate degrading
to 0 as the claim requires. -/
theorem C3_blank_reply_aborts_batch :
    similarity_row modelC3 pC3 rowC3b = some "90%"
    ∧ pct_to_float "abc" = 0
    ∧ similarity_row modelC3 pC3 (mkRow 1) = none
    ∧ add_similarity_column modelC3 [0, 1] pC3 [mkRow 1, rowC3b] = none :=
  ⟨by with_unfolding_all decide, by with_unfolding_all decide,
   by with_unfolding_all decide, by with_unfolding_all decide⟩

/-
Claim C9 — determinism of the pipeline under rescheduling.
-/

/-- Claim C9: `get_result` is a pure function of its inputs except for the
completion order of the scoring batch, and any two completion orders
covering the same task positions give identical outcomes — rerunning the
pipeline against an unchanged store and deterministic stubs returns the
same filtered/ranked table and report. -/
theorem C9_rerun_deterministic (g : Geocoder) (dist : DistFn) (store : List StoredRec)
    (model : ChatModel) (modelObj modelNews : TextModel)
    (dbSort : List NRow → List NRow)
    (pdSort : List (NRow × String) → List (NRow × String))
    (doNews : Bool) (p : Param) (m : ℕ) (sched1 sched2 : List ℕ)
    (h1 : List.Perm sched1 (List.range m)) (h2 : List.Perm sched2 (List.range m)) :
    get_result g dist store model modelObj modelNews dbSort pdSort doNews sched1 p
      = get_result g dist store model modelObj modelNews dbSort pdSort doNews sched2 p := by
  have key : ∀ (p1 : Param) (rows : List NRow),
      add_similarity_column model sched1 p1 rows
        = add_similarity_column model sched2 p1 rows :=
    fun p1 rows => add_similarity_column_sched_indep model p1 rows
      (fun i => h1.mem_iff.trans h2.mem_iff.symm)
  unfold get_result
  simp only [key]

/-- Witness for C9: two runs over a two-record store whose scoring tasks
complete in opposite orders agree. -/
theorem C9_rerun_deterministic_witness :
    List.Perm [1, 0] (List.range 2) ∧ List.Perm [0, 1] (List.range 2)
    ∧ get_result (fun _ => none) (fun _ _ t => t.longitude) [mkRec 1, mkRec 2]
        (fun _ _ => some "85%") (fun _ => some "ok") (fun _ => some "ok")
        dbSortStable pdSortStable false [1, 0] (mkParam (.num 1) (.num 2))
      = get_result (fun _ => none) (fun _ _ t => t.longitude) [mkRec 1, mkRec 2]
        (fun _ _ => some "85%") (fun _ => some "ok") (fun _ => some "ok")
        dbSortStable pdSortStable false [0, 1] (mkParam (.num 1) (.num 2)) :=
  ⟨by decide, by decide,
    C9_rerun_deterministic (fun _ => none) (fun _ _ t => t.longitude) [mkRec 1, mkRec 2]
      (fun _ _ => some "85%") (fun _ => some "ok") (fun _ => some "ok")
      dbSortStable pdSortStable false (mkParam (.num 1) (.num 2)) 2 [1, 0] [0, 1]
      (by decide) (by decide)⟩

/-
Claim C2 — ranking and filtering.
-/

/-- Claim C2 counterexample: a sorter meeting everything pandas guarantees
for `sort_values("sim_num", ascending=False)` with the default
`kind='quicksort'` (a permutation of its input, non-increasing in `sim_num`)
under which two equally scored candidates leave `get_result`'s filter/rank
step in the reverse of their original ascending-distance order: the code's
sort does not guarantee tie stability. -/
theorem C2_counterexample :
    PdSortDescOK badPdSort
    ∧ (mkRow 1).distance_m < (mkRow 2).distance_m
    ∧ simNum (mkRow 1, "50%") = simNum (mkRow 2, "50%")
    ∧ filterAndRank badPdSort [(mkRow 1, "50%"), (mkRow 2, "50%")]
      = [(mkRow 2, "50%"), (mkRow 1, "50%")] :=
  ⟨badPdSort_ok, by with_unfolding_all decide, by with_unfolding_all decide,
   by with_unfolding_all decide⟩

/-- Claim C2 (amended): for every sorter satisfying the pandas sort contract
and every scored candidate list, the filter/rank output is a subset of the
input, every kept element has `sim_num` at least 30, and the output is
non-increasing in `sim_num`; an empty output is an ordinary value.  (The
relative order of equal `sim_num` values is not specified.) -/
theorem C2_filter_rank (pdSort : List (NRow × String) → List (NRow × String))
    (hs : PdSortDescOK pdSort) (l : List (NRow × String)) :
    filterAndRank pdSort l ⊆ l
    ∧ (∀ r ∈ filterAndRank pdSort l, 30 ≤ simNum r)
    ∧ (filterAndRank pdSort l).Pairwise (fun a b => simNum b ≤ simNum a) := by
  obtain ⟨hperm, hsort⟩ := hs (l.filter (fun r => decide (30 ≤ simNum r)))
  refine ⟨?_, ?_, hsort⟩
  · intro r hr
    exact List.mem_of_mem_filter (hperm.subset hr)
  · intro r hr
    exact of_decide_eq_true (List.mem_filter.mp (hperm.subset hr)).2

/-- Witness for C2 at the spec's scenario-4 scores (85/20/45). -/
theorem C2_filter_rank_witness :
    PdSortDescOK pdSortStable
    ∧ (filterAndRank pdSortStable [(mkRow 1, "85%"), (mkRow 2, "20%"), (mkRow 3, "45%")]
        ⊆ [(mkRow 1, "85%"), (mkRow 2, "20%"), (mkRow 3, "45%")]
      ∧ (∀ r ∈ filterAndRank pdSortStable [(mkRow 1, "85%"), (mkRow 2, "20%"), (mkRow 3, "45%")],
          30 ≤ simNum r)
      ∧ (filterAndRank pdSortStable
          [(mkRow 1, "85%"), (mkRow 2, "20%"), (mkRow 3, "45%")]).Pairwise
          (fun a b => simNum b ≤ simNum a)) :=
  ⟨pdSortStable_ok,
    C2_filter_rank pdSortStable pdSortStable_ok
      [(mkRow 1, "85%"), (mkRow 2, "20%"), (mkRow 3, "45%")]⟩

/-
Claim C5 — the spatial neighbour query.
-/

/-- A 21-record store, all of whose records qualify at radius 10000. -/
def store21 : List StoredRec := (List.range 21).map (fun i => mkRec ((i : ℚ) + 1))

/-- The distance stub for the C5 counterexample: a record's longitude. -/
def dist21 : DistFn := fun _ _ t => t.longitude

/-- Claim C5 counterexample: with 21 qualifying records the query returns
only 20, so the farthest record satisfies the membership predicate
(distance at most the radius, positive, non-zero longitude) yet is not
returned — the "if and only if" of the claim fails once more than 20
records qualify. -/
theorem C5_counterexample :
    DbSortAscOK dbSortStable
    ∧ qualifies dist21 10000 0 0 (mkRec 21) ∧ mkRec 21 ∈ store21
    ∧ (find_neighbour dbSortStable dist21 store21 10000 0 0).length = 20
    ∧ projD 21 (mkRec 21) ∉ find_neighbour dbSortStable dist21 store21 10000 0 0 :=
  ⟨dbSortStable_ok, by with_unfolding_all decide, by with_unfolding_all decide,
   by with_unfolding_all decide, by with_unfolding_all decide⟩

/-- Claim C5 (amended): every returned record qualifies (distance at most
the radius, strictly positive, stored longitude non-zero); when at most 20
records qualify, every qualifying record is returned; the result is ordered
non-decreasing in distance and capped at 20; and every candidate table the
orchestrator produces only contains rows whose distance lies in
(0, 10000] — the orchestrator invokes the query with radius 10000. -/
theorem C5_neighbour_query (dbSort : List NRow → List NRow) (hs : DbSortAscOK dbSort)
    (dist : DistFn) (store : List StoredRec) (radius lon lat : ℚ) :
    (∀ r ∈ find_neighbour dbSort dist store radius lon lat,
        ∃ t ∈ store, qualifies dist radius lon lat t ∧ r = projD (dist lon lat t) t)
    ∧ ((store.filter (wherePred dist radius lon lat)).length ≤ 20 →
        ∀ t ∈ store, qualifies dist radius lon lat t →
          projD (dist lon lat t) t ∈ find_neighbour dbSort dist store radius lon lat)
    ∧ (find_neighbour dbSort dist store radius lon lat).Pairwise
        (fun a b => a.distance_m ≤ b.distance_m)
    ∧ (find_neighbour dbSort dist store radius lon lat).length ≤ 20
    ∧ (∀ (g : Geocoder) (model : ChatModel) (modelObj modelNews : TextModel)
        (pdSort : List (NRow × String) → List (NRow × String)) (doNews : Bool)
        (sched : List ℕ) (p : Param) (tbl : List (NRow × String)) (rep : Report),
        PdSortDescOK pdSort →
        get_result g dist store model modelObj modelNews dbSort pdSort doNews sched p
          = some (some (tbl, rep)) →
        ∀ rs ∈ tbl, 0 < rs.1.distance_m ∧ rs.1.distance_m ≤ 10000) := by
  refine ⟨find_neighbour_mem dbSort hs dist store radius lon lat, ?_, ?_, ?_, ?_⟩
  · intro hlen t ht hq
    have hmem : projD (dist lon lat t) t
        ∈ (store.filter (wherePred dist radius lon lat)).map
          (fun t => projD (dist lon lat t) t) :=
      List.mem_map_of_mem _ (List.mem_filter.mpr ⟨ht, (wherePred_iff _ _ _ _ t).mpr hq⟩)
    have hlen2 : (dbSort ((store.filter (wherePred dist radius lon lat)).map
        (fun t => projD (dist lon lat t) t))).length ≤ 20 := by
      rw [(hs _).1.length_eq, List.length_map]
      exact hlen
    unfold find_neighbour
    rw [List.take_of_length_le hlen2]
    exact ((hs _).1.mem_iff).mpr hmem
  · exact ((hs _).2).sublist (List.take_sublist 20 _)
  · unfold find_neighbour
    rw [List.length_take]
    exact min_le_left _ _
  · intro g model modelObj modelNews pdSort doNews sched p tbl rep hpd heq rs hrs
    obtain ⟨p1, lon1, lat1, scored, summary, sentiment, _, _, _, hscored, _, _, htbl, _⟩ :=
      get_result_inv g dist store model modelObj modelNews dbSort pdSort doNews sched p
        tbl rep heq
    rw [htbl] at hrs
    have h1 : rs ∈ scored := List.mem_of_mem_filter ((hpd _).1.subset hrs)
    have h2 : rs.1 ∈ find_neighbour dbSort dist store 10000 lon1 lat1 :=
      add_similarity_column_sub model sched p1 _ scored hscored rs h1
    obtain ⟨t, _, hq, hteq⟩ := find_neighbour_mem dbSort hs dist store 10000 lon1 lat1 rs.1 h2
    rw [hteq]
    exact ⟨hq.2.1, hq.1⟩

/-- The one-record store and distance stub of the C5 witness. -/
def storeC5w : List StoredRec := [mkRec 5]

/-- Distance stub of the C5 witness. -/
def distC5w : DistFn := fun _ _ t => t.longitude

/-- Witness for C5: the single qualifying record of a one-record store is
returned. -/
theorem C5_neighbour_query_witness :
    DbSortAscOK dbSortStable
    ∧ (storeC5w.filter (wherePred distC5w 10000 0 0)).length ≤ 20
    ∧ qualifies distC5w 10000 0 0 (mkRec 5)
    ∧ projD 5 (mkRec 5) ∈ find_neighbour dbSortStable distC5w storeC5w 10000 0 0 :=
  ⟨dbSortStable_ok, by with_unfolding_all decide, by with_unfolding_all decide,
    (C5_neighbour_query dbSortStable dbSortStable_ok distC5w storeC5w 10000 0 0).2.1
      (by with_unfolding_all decide) (mkRec 5) (by with_unfolding_all decide)
      (by with_unfolding_all decide)⟩

/-
Claim C8 — the reputation-check feature flag.
-/

/-- Claim C8: with the reputation-check flag off (its value in the source is
`DO_NEWS = False`), every report the pipeline produces carries the literal
sentinel "Aman!" as `client_sentiment`, and this holds for every web-search
model stub — no model call is involved in producing the field. -/
theorem C8_sentiment_flag_off (g : Geocoder) (dist : DistFn) (store : List StoredRec)
    (model : ChatModel) (modelObj modelNews : TextModel)
    (dbSort : List NRow → List NRow)
    (pdSort : List (NRow × String) → List (NRow × String))
    (sched : List ℕ) (p : Param) (tbl : List (NRow × String)) (rep : Report)
    (h : get_result g dist store model modelObj modelNews dbSort pdSort false sched p
      = some (some (tbl, rep))) :
    rep.client_sentiment = "Aman!" := by
  obtain ⟨p1, lon, lat, scored, summary, sentiment, _, _, _, _, _, hsent, _, hrep⟩ :=
    get_result_inv g dist store model modelObj modelNews dbSort pdSort false sched p tbl rep h
  have hs : sentiment = "Aman!" := by
    simp [get_llm_response_of_task_giver] at hsent
    exact hsent.symm
  rw [hrep, hs]
  rfl

/-- Witness for C8: a full pipeline run over an empty store returns the
report ("ok", "Aman!"). -/
theorem C8_sentiment_flag_off_witness :
    get_result (fun _ => none) (fun _ _ _ => 0) [] (fun _ _ => none) (fun _ => some "ok")
        (fun _ => none) dbSortStable pdSortStable false [] (mkParam (.num 1) (.num 2))
      = some (some ([], build_json_output "ok" "Aman!"))
    ∧ (build_json_output "ok" "Aman!").client_sentiment = "Aman!" :=
  ⟨by with_unfolding_all decide,
    C8_sentiment_flag_off (fun _ => none) (fun _ _ _ => 0) [] (fun _ _ => none)
      (fun _ => some "ok") (fun _ => none) dbSortStable pdSortStable []
      (mkParam (.num 1) (.num 2)) [] (build_json_output "ok" "Aman!")
      (by with_unfolding_all decide)⟩
